import Mathlib

/-!
Shallow embedding of the image lifecycle and coordination engine of
src/librbd/internal.cc: clone creation with compensating rollback, snapshot
protection queries and removal, exclusive-lock breaking, bulk image copy,
per-image mirroring disable and pool mirror-mode transitions.

Store calls (cls_client, rados, ImageState refresh, journal queries) are
external collaborators; each embedded function takes an environment record
holding the concrete result every such call would return, and the function
mirrors the C++ control flow over those results.  Machine integers are
modelled as Nat with explicit 64-bit masking where overflow matters.
-/

namespace Librbd

/-- POSIX errno values used by internal.cc (returned negated). -/
def ENOENT : Int := 2

/-- errno EIOErr. -/
def EIOErr : Int := 5

/-- errno EBUSY. -/
def EBUSY : Int := 16

/-- errno EEXIST. -/
def EEXIST : Int := 17

/-- errno EINVAL. -/
def EINVAL : Int := 22

/-- errno ENOSYS. -/
def ENOSYS : Int := 38

/-- errno EOPNOTSUPP. -/
def EOPNOTSUPP : Int := 95

/-- Mask of a 64-bit unsigned machine word. -/
def UINT64_MASK : Nat := 18446744073709551615

/-- CEPH_NOSNAP sentinel: (uint64_t)(-1) marks the head (no snapshot selected). -/
def CEPH_NOSNAP : Nat := 18446744073709551615

/-- RBD_FEATURE_LAYERING bit (1 << 0). -/
def RBD_FEATURE_LAYERING : Nat := 1

/-- RBD_FEATURE_JOURNALING bit (1 << 6). -/
def RBD_FEATURE_JOURNALING : Nat := 64

/-- Modelled from the spec: RBD_FEATURES_ALL, the globally supported feature
mask, is defined in the public feature header which is outside src/; it is the
union of the seven feature bits of this source era (layering, striping v2,
exclusive lock, object map, fast diff, deep flatten, journaling). -/
def RBD_FEATURES_ALL : Nat := 127

/-- Protection state of a snapshot, as stored in the image header. -/
inductive ProtectionStatus where
  | unprotected
  | protecting
  | protectedSt
  | unprotecting
deriving Repr, DecidableEq

/-- Pool mirror mode (cls::rbd::MirrorMode). -/
inductive MirrorMode where
  | disabled
  | image
  | pool
deriving Repr, DecidableEq

/-! ## clip_io -/

/-- Environment for clip_io: the snapshot-existence flag and the image size
read from the image context under snap_lock. -/
structure ClipIoEnv where
  snapExists : Bool
  imageSize : Nat
deriving Repr, DecidableEq

/-- Embedding of internal.cc clip_io: validate the extent (off, len) against
the image size and clip the length to the image end when the request extends
past it.  Returns the C return code together with the (possibly updated) value
of the in-out length parameter.  The comparison off + len > image_size is
64-bit unsigned addition in the source, hence the explicit modular reduction. -/
def clip_io (env : ClipIoEnv) (off len : Nat) : Int × Nat :=
  if env.snapExists = false then (-ENOENT, len)
  else if len = 0 then (0, len)
  else if env.imageSize ≤ off then (-EINVAL, len)
  else if env.imageSize < (off + len) % 18446744073709551616 then (0, env.imageSize - off)
  else (0, len)

/-! ## snap_is_protected -/

/-- Environment for snap_is_protected: the refresh result, whether the snap
name resolves to a snapshot id, and that snapshot's protection status.
ImageCtx is_snap_unprotected is modelled from the spec (ImageCtx.cc is outside
src/): it reports a snapshot as unprotected exactly when its protection status
is the plain unprotected state. -/
structure SnapIsProtEnv where
  refreshR : Int
  snapExists : Bool
  protStatus : ProtectionStatus
deriving Repr, DecidableEq

/-- Embedding of internal.cc snap_is_protected: refresh, resolve the snapshot
name, then report the snapshot as protected iff it is not unprotected (the
source comment: consider both PROTECTED or UNPROTECTING to be protected, since
in either state they cannot be deleted).  Errors are the refresh failure or
-ENOENT for an unknown name. -/
def snap_is_protected (env : SnapIsProtEnv) : Except Int Bool :=
  if env.refreshR < 0 then .error env.refreshR
  else if env.snapExists = false then .error (-ENOENT)
  else .ok (env.protStatus ≠ .unprotected)

/-! ## clone -/

/-- Compensating actions of the clone protocol, in the order the error labels
err_remove_child, err_close_child, err_remove execute them. -/
inductive CompStep where
  | removeChild
  | closeChild
  | removeImage
deriving Repr, DecidableEq

/-- Environment for clone: results of every external call the function makes,
in program order, plus the parent metadata read under snap_lock and the
results the compensation calls would return (those are only logged). -/
structure CloneEnv where
  pSnapId : Nat
  formatOpt : Option Nat
  featuresOpt : Option Nat
  orderOpt : Option Nat
  pOrder : Nat
  detectFormatR : Int
  pOldFormat : Bool
  pFeatures : Nat
  pSize : Nat
  isSnapProtR : Int
  snapProtected : Bool
  isTagOwnerR : Int
  isPrimary : Bool
  createR : Int
  openR : Int
  setParentR : Int
  addChildR : Int
  refreshR : Int
  recheckR : Int
  recheckProtected : Bool
  metadataListR : Int
  pairsEmpty : Bool
  metadataSetR : Int
  mirrorModeGetR : Int
  cloneMirrorMode : MirrorMode
  mirrorEnableR : Int
  closeR : Int
  compRemoveChildR : Int
  compCloseR : Int
  compRemoveR : Int
deriving Repr, DecidableEq

/-- Result of clone: the returned code, the compensation steps actually
executed paired with their (logged) results, and the feature set the child was
created with (none when control never reached create). -/
structure CloneResult where
  ret : Int
  comps : List (CompStep × Int)
  childFeatures : Option Nat
deriving Repr, DecidableEq

/-- Compensations run from label err_remove_child: remove the child from the
parent's child index, close the child handle, delete the child image. -/
def cloneCompRemoveChild (env : CloneEnv) : List (CompStep × Int) :=
  [(.removeChild, env.compRemoveChildR), (.closeChild, env.compCloseR),
   (.removeImage, env.compRemoveR)]

/-- Compensations run from label err_close_child. -/
def cloneCompCloseChild (env : CloneEnv) : List (CompStep × Int) :=
  [(.closeChild, env.compCloseR), (.removeImage, env.compRemoveR)]

/-- Compensations run from label err_remove. -/
def cloneCompRemove (env : CloneEnv) : List (CompStep × Int) :=
  [(.removeImage, env.compRemoveR)]

/-- Caller-specified features must lie inside RBD_FEATURES_ALL; the source
tests features AND NOT RBD_FEATURES_ALL on uint64. -/
def cloneBadFeatures (env : CloneEnv) : Bool :=
  match env.featuresOpt with
  | some f => (f &&& (UINT64_MASK ^^^ RBD_FEATURES_ALL)) != 0
  | none => false

/-- Effective feature set of the child: the caller's choice, else inherited
from the parent (use_p_features in the source). -/
def effFeatures (env : CloneEnv) : Nat :=
  match env.featuresOpt with
  | some f => f
  | none => env.pFeatures

/-- Journaling-parent gate: when the parent has journaling, the parent must be
the replication primary unless a non-primary global image id forces the clone
to be a non-primary replica.  Returns the early-return code (negative), or 0
to continue, mirroring the int r convention of the source. -/
def cloneJournalGate (nonPrimaryGlobalImageId : String) (env : CloneEnv) :
    Int :=
  if env.pFeatures &&& RBD_FEATURE_JOURNALING ≠ 0 then
    if env.isTagOwnerR < 0 then env.isTagOwnerR
    else if env.isPrimary = false ∧ nonPrimaryGlobalImageId.isEmpty then
      -EINVAL
    else 0
  else 0

/-- Protection re-check after registration: the source refreshes the parent
and re-reads protection only when the refresh returned exactly 0; otherwise r
keeps the refresh result and snap_protected keeps its earlier (true) value. -/
def cloneRecheck (env : CloneEnv) : Int × Bool :=
  if env.refreshR = 0 then (env.recheckR, env.recheckProtected)
  else (env.refreshR, true)

/-- Effective mirror mode seen by the clone mirror-enable phase: the local
variable is initialized to disabled and mirror_mode_get only overwrites it on
success (-ENOENT is tolerated and leaves it disabled). -/
def cloneEffMirrorMode (env : CloneEnv) : MirrorMode :=
  if env.mirrorModeGetR < 0 then .disabled else env.cloneMirrorMode

/-- Post-validation tail of clone, from the create call onward: child
creation, open, parent registration, child-index registration, protection
re-check, metadata copy, mirror enable, with compensating rollback through the
goto labels on failure.  The child image is created with the effective feature
set, so the source's test_features(RBD_FEATURE_JOURNALING) on the opened child
is the journaling bit of the effective features. -/
def cloneBody (nonPrimaryGlobalImageId : String) (env : CloneEnv) :
    CloneResult :=
  let features := effFeatures env
  if env.createR < 0 then ⟨env.createR, [], some features⟩
  else if env.openR < 0 then
    ⟨env.openR, cloneCompRemove env, some features⟩
  else if env.setParentR < 0 then
    ⟨env.setParentR, cloneCompCloseChild env, some features⟩
  else if env.addChildR < 0 then
    ⟨env.addChildR, cloneCompCloseChild env, some features⟩
  else if (cloneRecheck env).1 < 0 ∨ (cloneRecheck env).2 = false then
    ⟨-EINVAL, cloneCompRemoveChild env, some features⟩
  else if env.metadataListR < 0 ∧
      ¬ (env.metadataListR = -EOPNOTSUPP ∨ env.metadataListR = -EIOErr) then
    ⟨env.metadataListR, cloneCompRemoveChild env, some features⟩
  else if env.metadataListR = 0 ∧ env.pairsEmpty = false ∧
      env.metadataSetR < 0 then
    ⟨env.metadataSetR, cloneCompRemoveChild env, some features⟩
  else if features &&& RBD_FEATURE_JOURNALING ≠ 0 then
    if env.mirrorModeGetR < 0 ∧ ¬ env.mirrorModeGetR = -ENOENT then
      ⟨env.mirrorModeGetR, cloneCompRemoveChild env, some features⟩
    else if (cloneEffMirrorMode env = .pool ∨
        nonPrimaryGlobalImageId.isEmpty = false) ∧ env.mirrorEnableR < 0 then
      ⟨env.mirrorEnableR, cloneCompRemoveChild env, some features⟩
    else ⟨env.closeR, [], some features⟩
  else ⟨env.closeR, [], some features⟩

/-- Embedding of internal.cc clone (the ImageCtx overload): validation in
program order, then the create-onward tail cloneBody. -/
def clone (nonPrimaryGlobalImageId : String) (env : CloneEnv) : CloneResult :=
  if env.pSnapId = CEPH_NOSNAP then ⟨-EINVAL, [], none⟩
  else if env.formatOpt.getD 2 < 2 then ⟨-EINVAL, [], none⟩
  else if cloneBadFeatures env then ⟨-ENOSYS, [], none⟩
  else if ¬ env.detectFormatR = -ENOENT then ⟨-EEXIST, [], none⟩
  else if env.pOldFormat then ⟨-EINVAL, [], none⟩
  else if ¬ env.pFeatures &&& RBD_FEATURE_LAYERING = RBD_FEATURE_LAYERING then
    ⟨-ENOSYS, [], none⟩
  else if env.isSnapProtR < 0 then ⟨env.isSnapProtR, [], none⟩
  else if env.snapProtected = false then ⟨-EINVAL, [], none⟩
  else if cloneJournalGate nonPrimaryGlobalImageId env < 0 then
    ⟨cloneJournalGate nonPrimaryGlobalImageId env, [], none⟩
  else if ¬ effFeatures env &&& RBD_FEATURE_LAYERING = RBD_FEATURE_LAYERING then
    ⟨-ENOSYS, [], none⟩
  else cloneBody nonPrimaryGlobalImageId env

/-- Validation prefix of clone up to and including the protection read, with
each conjunct stated as the negation of the corresponding early-return
condition. -/
def cloneHeadOk (env : CloneEnv) : Prop :=
  ¬ env.pSnapId = CEPH_NOSNAP ∧
  ¬ env.formatOpt.getD 2 < 2 ∧
  cloneBadFeatures env = false ∧
  env.detectFormatR = -ENOENT ∧
  env.pOldFormat = false ∧
  env.pFeatures &&& RBD_FEATURE_LAYERING = RBD_FEATURE_LAYERING ∧
  ¬ env.isSnapProtR < 0

instance (env : CloneEnv) : Decidable (cloneHeadOk env) := by
  unfold cloneHeadOk; infer_instance

/-- Full validation of clone (everything before the child create call
succeeds). -/
def cloneValidationOk (nonPrimaryGlobalImageId : String) (env : CloneEnv) :
    Prop :=
  cloneHeadOk env ∧
  env.snapProtected = true ∧
  ¬ cloneJournalGate nonPrimaryGlobalImageId env < 0 ∧
  effFeatures env &&& RBD_FEATURE_LAYERING = RBD_FEATURE_LAYERING

instance (s : String) (env : CloneEnv) :
    Decidable (cloneValidationOk s env) := by
  unfold cloneValidationOk; infer_instance


/-- Steps open, set_parent and add_child all succeeded. -/
def clonePre4 (env : CloneEnv) : Prop :=
  ¬ env.openR < 0 ∧ ¬ env.setParentR < 0 ∧ ¬ env.addChildR < 0

instance (env : CloneEnv) : Decidable (clonePre4 env) := by
  unfold clonePre4; infer_instance

/-- Additionally the protection re-check passed. -/
def clonePre5 (env : CloneEnv) : Prop :=
  clonePre4 env ∧ ¬ ((cloneRecheck env).1 < 0 ∨ (cloneRecheck env).2 = false)

instance (env : CloneEnv) : Decidable (clonePre5 env) := by
  unfold clonePre5; infer_instance

/-- Additionally the metadata listing did not fail hard. -/
def clonePre6 (env : CloneEnv) : Prop :=
  clonePre5 env ∧
  ¬ (env.metadataListR < 0 ∧
     ¬ (env.metadataListR = -EOPNOTSUPP ∨ env.metadataListR = -EIOErr))

instance (env : CloneEnv) : Decidable (clonePre6 env) := by
  unfold clonePre6; infer_instance

/-- Additionally the metadata copy did not fail. -/
def clonePre7 (env : CloneEnv) : Prop :=
  clonePre6 env ∧
  ¬ (env.metadataListR = 0 ∧ env.pairsEmpty = false ∧ env.metadataSetR < 0)

instance (env : CloneEnv) : Decidable (clonePre7 env) := by
  unfold clonePre7; infer_instance

/-- Clone environment in which every external call succeeds; the parent has
layering only, so the journaling gates are inert. -/
def cloneEnvOk : CloneEnv :=
  { pSnapId := 4, formatOpt := none, featuresOpt := none, orderOpt := none,
    pOrder := 22, detectFormatR := -ENOENT, pOldFormat := false,
    pFeatures := 1, pSize := 1024, isSnapProtR := 0, snapProtected := true,
    isTagOwnerR := 0, isPrimary := true, createR := 0, openR := 0,
    setParentR := 0, addChildR := 0, refreshR := 0, recheckR := 0,
    recheckProtected := true, metadataListR := 0, pairsEmpty := true,
    metadataSetR := 0, mirrorModeGetR := 0, cloneMirrorMode := .image,
    mirrorEnableR := 0, closeR := 0, compRemoveChildR := 0, compCloseR := 0,
    compRemoveR := 0 }

/-- Clone environment where set_parent fails with -EIOErr while the compensation
calls themselves fail with distinct codes. -/
def cloneEnvSetParentFail : CloneEnv :=
  { cloneEnvOk with setParentR := -5, compCloseR := -7, compRemoveR := -9 }

/-- Clone environment where the caller requests a feature bit (128) outside
the supported mask. -/
def cloneEnvBadFeatures : CloneEnv :=
  { cloneEnvOk with featuresOpt := some 128 }

deriving instance DecidableEq for Except

/-! ## snap_remove -/

/-- Environment for get_snap_namespace: refresh result, whether the name
resolves, the result of the ImageCtx namespace lookup, and whether the
namespace is the plain user namespace. -/
structure GetSnapNsEnv where
  refreshR : Int
  snapExists : Bool
  getNsR : Int
  isUserNs : Bool
deriving Repr, DecidableEq

/-- Embedding of internal.cc get_snap_namespace: refresh, resolve the name to
a snapshot id (-ENOENT when absent), then read the snapshot namespace; on
success reports whether it is a user-namespace snapshot. -/
def get_snap_namespace (env : GetSnapNsEnv) : Except Int Bool :=
  if env.refreshR < 0 then .error env.refreshR
  else if env.snapExists = false then .error (-ENOENT)
  else if env.getNsR < 0 then .error env.getNsR
  else .ok env.isUserNs

/-- Outcome of snap_remove: a returned code, or the ceph_abort() process
abort. -/
inductive SnapRemoveOutcome where
  | ret (r : Int)
  | abortProcess
deriving Repr, DecidableEq

/-- Environment for snap_remove: the namespace lookup, the refresh, the
flatten-children sweep, the two protection reads around unprotect, the
unprotect itself and the final asynchronous remove. -/
structure SnapRemoveEnv where
  ns : GetSnapNsEnv
  refreshR : Int
  flattenR : Int
  prot1 : SnapIsProtEnv
  unprotectR : Int
  prot2 : SnapIsProtEnv
  removeR : Int
deriving Repr, DecidableEq

/-- Embedding of internal.cc snap_remove.  The two flag bits of the C flags
word (RBD_SNAP_REMOVE_FLATTEN, RBD_SNAP_REMOVE_UNPROTECT, declared in the
public header outside src/) are passed as the two Bool arguments.  Returns
the outcome together with whether snap_unprotect was invoked. -/
def snap_remove (flattenFlag unprotectFlag : Bool) (env : SnapRemoveEnv) :
    SnapRemoveOutcome × Bool :=
  match get_snap_namespace env.ns with
  | .error r => (.ret r, false)
  | .ok isUser =>
    if isUser = false then (.ret (-EINVAL), false)
    else if env.refreshR < 0 then (.ret env.refreshR, false)
    else if flattenFlag ∧ env.flattenR < 0 then (.ret env.flattenR, false)
    else
      match snap_is_protected env.prot1 with
      | .error r => (.ret r, false)
      | .ok isProt =>
        if isProt ∧ unprotectFlag then
          if env.unprotectR < 0 then (.ret env.unprotectR, true)
          else
            match snap_is_protected env.prot2 with
            | .error r => (.ret r, true)
            | .ok isProt2 =>
              if isProt2 then (.abortProcess, true)
              else (.ret env.removeR, true)
        else (.ret env.removeR, false)

/-- The snap_remove steps before the protection handling all passed. -/
def snapRemovePrefixOk (flattenFlag : Bool) (env : SnapRemoveEnv) : Prop :=
  get_snap_namespace env.ns = .ok true ∧ ¬ env.refreshR < 0 ∧
  ¬ (flattenFlag = true ∧ env.flattenR < 0)

instance (ff : Bool) (env : SnapRemoveEnv) :
    Decidable (snapRemovePrefixOk ff env) := by
  unfold snapRemovePrefixOk; infer_instance

/-- snap_remove environment whose snapshot is not protected while the
unprotect call would fail and the re-read would report protected: the
unprotect step must be skipped entirely. -/
def snapRemoveEnvSkip : SnapRemoveEnv :=
  { ns := { refreshR := 0, snapExists := true, getNsR := 0, isUserNs := true },
    refreshR := 0, flattenR := 0,
    prot1 := { refreshR := 0, snapExists := true, protStatus := .unprotected },
    unprotectR := -5,
    prot2 := { refreshR := 0, snapExists := true, protStatus := .protectedSt },
    removeR := 0 }

/-! ## copy -/

/-- Per-chunk oracle for the bulk copy sweep: the chunk read's completion
code, whether the read buffer is entirely zero, and the completion code the
chunk's write would produce. -/
structure CopyChunk where
  readR : Int
  isZero : Bool
  writeR : Int
deriving Repr, DecidableEq

/-- Environment for copy: sizes read under snap_lock, metadata copy results,
the stripe period and the per-chunk oracle. -/
structure CopyEnv where
  srcSize : Nat
  destSize : Nat
  metadataListR : Int
  pairsEmpty : Bool
  metadataSetR : Int
  period : Nat
  chunk : Nat → CopyChunk

/-- Error a chunk operation contributes, as recorded by the throttle's
end_op: the read failure, else nothing for an elided all-zero chunk, else the
write failure. -/
def chunkErr (c : CopyChunk) : Option Int :=
  if c.readR < 0 then some c.readR
  else if c.isZero then none
  else if c.writeR < 0 then some c.writeR
  else none

/-- Pipeline state: the first recorded error (SimpleThrottle m_ret), offsets
whose write was issued, and the update_progress calls made. -/
structure CopyState where
  err : Option Int
  writes : List Nat
  progress : List (Nat × Nat)
deriving Repr, DecidableEq

/-- One iteration of the copy loop for chunk index i (offset i * period),
sequentialized: pending_error stops the sweep at the top of the iteration;
otherwise the chunk is read, a write is issued unless the buffer is all
zeroes, the first error is recorded, and progress is reported.
SimpleThrottle (common/Throttle, outside src/) is modelled from the spec as
retaining the first error passed to end_op. -/
def copyStep (chunk : Nat → CopyChunk) (srcSize period : Nat)
    (st : CopyState) (i : Nat) : CopyState :=
  match st.err with
  | some _ => st
  | none =>
    let c := chunk i
    let off := i * period
    { err := chunkErr c,
      writes := if ¬ c.readR < 0 ∧ c.isZero = false then st.writes ++ [off]
                else st.writes,
      progress := st.progress ++ [(off, srcSize)] }

/-- Number of stripe-period chunks the loop visits (rbd_howmany). -/
def copyNumChunks (env : CopyEnv) : Nat :=
  (env.srcSize + env.period - 1) / env.period

/-- Result of copy: return code, issued writes and reported progress. -/
structure CopyResult where
  ret : Int
  writes : List Nat
  progress : List (Nat × Nat)
deriving Repr, DecidableEq

/-- Embedding of internal.cc copy: destination capacity check, user-metadata
copy, then the throttled chunk sweep; wait_for_ret returns the first recorded
error or 0, and only a fully successful sweep reports the final cumulative
progress src_size of src_size. -/
def copy (env : CopyEnv) : CopyResult :=
  if env.destSize < env.srcSize then ⟨-EINVAL, [], []⟩
  else if env.metadataListR < 0 ∧
      ¬ (env.metadataListR = -EOPNOTSUPP ∨ env.metadataListR = -EIOErr) then
    ⟨env.metadataListR, [], []⟩
  else if env.metadataListR = 0 ∧ env.pairsEmpty = false ∧
      env.metadataSetR < 0 then
    ⟨env.metadataSetR, [], []⟩
  else
    let st := (List.range (copyNumChunks env)).foldl
      (copyStep env.chunk env.srcSize env.period) ⟨none, [], []⟩
    match st.err with
    | some e => ⟨e, st.writes, st.progress⟩
    | none => ⟨0, st.writes, st.progress ++ [(env.srcSize, env.srcSize)]⟩

/-- The copy pre-sweep validation passed. -/
def copyValidOk (env : CopyEnv) : Prop :=
  ¬ env.destSize < env.srcSize ∧
  ¬ (env.metadataListR < 0 ∧
     ¬ (env.metadataListR = -EOPNOTSUPP ∨ env.metadataListR = -EIOErr)) ∧
  ¬ (env.metadataListR = 0 ∧ env.pairsEmpty = false ∧ env.metadataSetR < 0)

instance (env : CopyEnv) : Decidable (copyValidOk env) := by
  unfold copyValidOk; infer_instance

/-- All-zero copy environment: two chunks of period 8 over 16 bytes, every
read succeeding with all-zero content. -/
def copyEnvZero : CopyEnv :=
  { srcSize := 16, destSize := 16, metadataListR := 0, pairsEmpty := true,
    metadataSetR := 0, period := 8,
    chunk := fun _ => { readR := 8, isZero := true, writeR := 0 } }

/-! ## lock_break and break_lock -/

/-- RBD_LOCK_MODE_EXCLUSIVE (public header constant). -/
def RBD_LOCK_MODE_EXCLUSIVE : Nat := 0

/-- Environment for lock_break: the GetLockerRequest result, the stored
locker's address, and the BreakRequest result (BreakRequest, outside src/,
performs the optional blacklisting internally and is represented by its
completion code). -/
structure LockBreakEnv where
  getOwnerR : Int
  lockerAddress : String
  breakR : Int
deriving Repr, DecidableEq

/-- Embedding of internal.cc lock_break: only the exclusive mode is
supported; the current locker is read first (-ENOENT when the lock is
vacant); a stored address differing from the caller-supplied owner is
-EBUSY; otherwise a BreakRequest is issued.  The Bool reports whether the
break request was issued at all. -/
def lock_break (lockMode : Nat) (lockOwner : String) (env : LockBreakEnv) :
    Int × Bool :=
  if lockMode ≠ RBD_LOCK_MODE_EXCLUSIVE then (-EOPNOTSUPP, false)
  else if env.getOwnerR = -ENOENT then (-ENOENT, false)
  else if env.getOwnerR < 0 then (env.getOwnerR, false)
  else if env.lockerAddress ≠ lockOwner then (-EBUSY, false)
  else if env.breakR = -ENOENT then (-ENOENT, true)
  else if env.breakR < 0 then (env.breakR, true)
  else (0, true)

/-- Store side effects of break_lock, in order. -/
inductive LockEvent where
  | blacklistAdd (addr : String)
  | breakIssued
deriving Repr, DecidableEq

/-- Environment for the older break_lock entry point: refresh result,
whether the client string parses, the blacklist_on_break_lock configuration,
the lock-info read, the stored lockers (client id paired with address), the
blacklist_add result and the cls break_lock result. -/
structure BreakLockEnv where
  refreshR : Int
  parseOk : Bool
  blacklistOn : Bool
  lockInfoR : Int
  lockers : List (Nat × String)
  blacklistAddR : Int
  breakLockR : Int
deriving Repr, DecidableEq

/-- Embedding of internal.cc break_lock: refresh, parse the client name,
then (when blacklisting is configured) read the lock record, find the named
client's address among the lockers (-ENOENT when absent) and blacklist it
before issuing the store-side break.  Parsed entity_name_t identities are
represented by numeric ids. -/
def break_lock (client : Nat) (env : BreakLockEnv) :
    Int × List LockEvent :=
  if env.refreshR < 0 then (env.refreshR, [])
  else if env.parseOk = false then (-EINVAL, [])
  else if env.blacklistOn then
    if env.lockInfoR < 0 then (env.lockInfoR, [])
    else
      match env.lockers.find? (fun x => x.1 == client) with
      | none => (-ENOENT, [])
      | some l =>
        if env.blacklistAddR < 0 then
          (env.blacklistAddR, [.blacklistAdd l.2])
        else if env.breakLockR < 0 then
          (env.breakLockR, [.blacklistAdd l.2, .breakIssued])
        else (0, [.blacklistAdd l.2, .breakIssued])
  else if env.breakLockR < 0 then (env.breakLockR, [.breakIssued])
  else (0, [.breakIssued])

/-- lock_break environment in which there is no current locker. -/
def lockBreakEnvVacant : LockBreakEnv :=
  { getOwnerR := -ENOENT, lockerAddress := "", breakR := 0 }

/-- break_lock environment with blacklisting configured and one locker. -/
def breakLockEnvOne : BreakLockEnv :=
  { refreshR := 0, parseOk := true, blacklistOn := true, lockInfoR := 0,
    lockers := [(4213, "addr1")], blacklistAddR := 0,
    breakLockR := 0 }

/-! ## mirror_image_disable -/

/-- Milestones of mirror_image_disable, in order of occurrence. -/
inductive DisableEvent where
  | markDisabling
  | childrenCheck
  | teardown (force : Bool)
  | rollbackEnabled
deriving Repr, DecidableEq

/-- One pool visited by the descendant scan of one snapshot: the
ioctx_create2 result and the mirror_image_get result of each child image id
registered there. -/
structure MirrorPoolEnv where
  ioctxCreateR : Int
  children : List Int
deriving Repr, DecidableEq

/-- One snapshot of the image being disabled: the list_children_info result
and the per-pool child records. -/
structure MirrorSnapEnv where
  listChildrenR : Int
  pools : List MirrorPoolEnv
deriving Repr, DecidableEq

/-- Environment for mirror_image_disable. -/
structure MirrorDisableEnv where
  refreshR : Int
  modeGetR : Int
  mirrorMode : MirrorMode
  imageGetR : Int
  setDisablingR : Int
  snaps : List MirrorSnapEnv
  disableInternalR : Int
  rollbackSetR : Int
deriving Repr, DecidableEq

/-- Child scan of one pool: any child whose mirror_image_get result is not
-ENOENT (a mirror record exists, or the read failed another way) aborts the
disable with -EBUSY. -/
def mirrorDisableCheckChildren : List Int → Except Int Unit
  | [] => .ok ()
  | r :: rest =>
    if r ≠ -ENOENT then .error (-EBUSY)
    else mirrorDisableCheckChildren rest

/-- Pool scan of one snapshot: pool access failures surface as-is. -/
def mirrorDisableCheckPools : List MirrorPoolEnv → Except Int Unit
  | [] => .ok ()
  | p :: rest =>
    if p.ioctxCreateR < 0 then .error p.ioctxCreateR
    else
      match mirrorDisableCheckChildren p.children with
      | .error e => .error e
      | .ok _ => mirrorDisableCheckPools rest

/-- Scan over every snapshot of the image. -/
def mirrorDisableCheckSnaps : List MirrorSnapEnv → Except Int Unit
  | [] => .ok ()
  | sn :: rest =>
    if sn.listChildrenR < 0 then .error sn.listChildrenR
    else
      match mirrorDisableCheckPools sn.pools with
      | .error e => .error e
      | .ok _ => mirrorDisableCheckSnaps rest

/-- Embedding of internal.cc mirror_image_disable: refresh, require the
per-image pool mode, tolerate an unmirrored image (-ENOENT is success 0),
mark the record disabling, scan every snapshot's descendants in every pool
(with no reference to the force flag), then run the terminal teardown
(mirror::DisableRequest, outside src/, receives force); the BOOST scope exit
rolls the record back to enabled on any failure after the marking. -/
def mirror_image_disable (force : Bool) (env : MirrorDisableEnv) :
    Int × List DisableEvent :=
  if env.refreshR < 0 then (env.refreshR, [])
  else if env.modeGetR < 0 then (env.modeGetR, [])
  else if env.mirrorMode ≠ .image then (-EINVAL, [])
  else if env.imageGetR = -ENOENT then (0, [])
  else if env.imageGetR = -EOPNOTSUPP then (-EOPNOTSUPP, [])
  else if env.imageGetR < 0 then (env.imageGetR, [])
  else if env.setDisablingR < 0 then (env.setDisablingR, [])
  else
    match mirrorDisableCheckSnaps env.snaps with
    | .error e => (e, [.markDisabling, .childrenCheck, .rollbackEnabled])
    | .ok _ =>
      if env.disableInternalR < 0 then
        (env.disableInternalR,
         [.markDisabling, .childrenCheck, .teardown force, .rollbackEnabled])
      else (0, [.markDisabling, .childrenCheck, .teardown force])

/-- The mirror_image_disable steps before the disabling mark all passed. -/
def mirrorDisablePrefixOk (env : MirrorDisableEnv) : Prop :=
  ¬ env.refreshR < 0 ∧ ¬ env.modeGetR < 0 ∧ env.mirrorMode = .image ∧
  ¬ env.imageGetR = -ENOENT ∧ ¬ env.imageGetR = -EOPNOTSUPP ∧
  ¬ env.imageGetR < 0 ∧ ¬ env.setDisablingR < 0

instance (env : MirrorDisableEnv) : Decidable (mirrorDisablePrefixOk env) := by
  unfold mirrorDisablePrefixOk; infer_instance

/-- Disable environment whose image has one still-mirrored descendant. -/
def mirrorDisableEnvBusy : MirrorDisableEnv :=
  { refreshR := 0, modeGetR := 0, mirrorMode := .image, imageGetR := 0,
    setDisablingR := 0,
    snaps := [{ listChildrenR := 0,
                pools := [{ ioctxCreateR := 0, children := [0] }] }],
    disableInternalR := 0, rollbackSetR := 0 }

/-! ## mirror_mode_set -/

/-- Store side effects of mirror_mode_set, in order. -/
inductive MMEvent where
  | uuidSet
  | modeSet (m : MirrorMode)
  | notifyUpdated (m : MirrorMode)
  | sweepPool
  | sweepDisable
deriving Repr, DecidableEq

/-- Environment for mirror_mode_set.  The two per-image walks (auto-enabling
every journaled image when entering pool mode, and checking or disabling
per-image records when leaving) are abstracted into a single sweep result:
they call mirror_image_enable and mirror_image_disable, and
cls_client::mirror_uuid_set has exactly one call site in the source, so the
sweep can never touch the pool mirroring uuid. -/
structure MirrorModeSetEnv where
  peerListR : Int
  peersEmpty : Bool
  modeGetR : Int
  currentMode : MirrorMode
  uuidSetR : Int
  setImageModeR : Int
  sweepR : Int
  setFinalModeR : Int
deriving Repr, DecidableEq

/-- Next mode from the rbd_mirror_mode_t argument (0 disabled, 1 image,
2 pool). -/
def mmNext (mode : Nat) : MirrorMode :=
  if mode = 0 then .disabled else if mode = 1 then .image else .pool

/-- Embedding of internal.cc mirror_mode_set: validate the requested mode;
when disabling, fail early while peers remain registered; read the current
mode; a no-op transition returns immediately; a transition leaving disabled
mints and stores the pool mirroring uuid; the mode is staged through image
mode, the per-image sweep runs, and the final mode is stored and
broadcast. -/
def mirror_mode_set (mode : Nat) (env : MirrorModeSetEnv) :
    Int × List MMEvent :=
  if 2 < mode then (-EINVAL, [])
  else if mmNext mode = .disabled ∧ env.peerListR < 0 ∧
      ¬ env.peerListR = -ENOENT then (env.peerListR, [])
  else if mmNext mode = .disabled ∧
      ¬ (env.peerListR < 0 ∧ ¬ env.peerListR = -ENOENT) ∧
      env.peersEmpty = false then (-EBUSY, [])
  else if env.modeGetR < 0 then (env.modeGetR, [])
  else if env.currentMode = mmNext mode then (0, [])
  else
    let ev0 : List MMEvent :=
      if env.currentMode = .disabled then [.uuidSet] else []
    if env.currentMode = .disabled ∧ env.uuidSetR < 0 then
      (env.uuidSetR, ev0)
    else if ¬ env.currentMode = .image ∧ env.setImageModeR < 0 then
      (env.setImageModeR, ev0 ++ [.modeSet .image])
    else
      let ev1 := ev0 ++
        (if ¬ env.currentMode = .image then
          [MMEvent.modeSet .image, MMEvent.notifyUpdated .image] else [])
      if mmNext mode = .image then (0, ev1)
      else
        let ev2 := ev1 ++
          [if mmNext mode = .pool then MMEvent.sweepPool
           else MMEvent.sweepDisable]
        if env.sweepR < 0 then (env.sweepR, ev2)
        else if env.setFinalModeR < 0 then
          (env.setFinalModeR, ev2 ++ [.modeSet (mmNext mode)])
        else (0, ev2 ++ [.modeSet (mmNext mode),
                         .notifyUpdated (mmNext mode)])

/-- Mode-set environment starting from disabled mode. -/
def mmEnvFromDisabled : MirrorModeSetEnv :=
  { peerListR := 0, peersEmpty := true, modeGetR := 0,
    currentMode := .disabled, uuidSetR := 0, setImageModeR := 0,
    sweepR := 0, setFinalModeR := 0 }

/-- Mode-set environment starting from image mode. -/
def mmEnvFromImage : MirrorModeSetEnv :=
  { mmEnvFromDisabled with currentMode := .image }

/-- Under full validation, clone reduces to its create-onward tail. -/
theorem clone_eq_body_of_valid (s : String) (env : CloneEnv)
    (h : cloneValidationOk s env) : clone s env = cloneBody s env := by
  obtain ⟨⟨h1, h2, h3, h4, h5, h6, h7⟩, h8, h9, h10⟩ := h
  simp [clone, h1, h2, h3, h4, h5, h6, h7, h8, h9, h10]

/-- Every result of the create-onward tail records the effective child
feature set. -/
theorem cloneBody_childFeatures (s : String) (env : CloneEnv) :
    (cloneBody s env).childFeatures = some (effFeatures env) := by
  unfold cloneBody
  dsimp only
  repeat' split
  all_goals rfl

set_option maxHeartbeats 1600000 in
/-- Either clone passed its whole validation (and then equals the
create-onward tail), or it returned a negative code. -/
theorem clone_path (s : String) (env : CloneEnv) :
    (env.snapProtected = true ∧
     effFeatures env &&& RBD_FEATURE_LAYERING = RBD_FEATURE_LAYERING ∧
     clone s env = cloneBody s env) ∨ (clone s env).ret < 0 := by
  unfold clone
  split_ifs with h1 h2 h3 h4 h5 h6 h7 h8 h9 h10
  all_goals try (right; first
    | (simp [EINVAL, ENOSYS, EEXIST]; done)
    | assumption
    | omega)
  all_goals exact Or.inl ⟨by simp_all, by simp_all, rfl⟩

set_option maxHeartbeats 1600000 in
/-- A nonnegative return from the create-onward tail implies the re-check
after registration still saw the parent snapshot protected. -/
theorem cloneBody_success_recheck (s : String) (env : CloneEnv) :
    0 ≤ (cloneBody s env).ret → (cloneRecheck env).2 = true := by
  unfold cloneBody
  dsimp only
  split_ifs with b1 b2 b3 b4 b5 b6 b7 b8 b9 b10
  all_goals intro h
  all_goals try (exfalso; simp only [EINVAL, EOPNOTSUPP, EIOErr, ENOENT] at *; omega)
  all_goals simp_all

/-- A nonnegative return from clone implies the whole protocol ran: the
parent snapshot was protected at validation, the re-check after registration
still saw it protected, and the child was created with a layering-capable
effective feature set. -/
theorem clone_success_inv (s : String) (env : CloneEnv)
    (h : 0 ≤ (clone s env).ret) :
    env.snapProtected = true ∧ (cloneRecheck env).2 = true ∧
    (clone s env).childFeatures = some (effFeatures env) ∧
    effFeatures env &&& RBD_FEATURE_LAYERING = RBD_FEATURE_LAYERING := by
  rcases clone_path s env with ⟨hsp, hl, heq⟩ | hneg
  · refine ⟨hsp, ?_, ?_, hl⟩
    · exact cloneBody_success_recheck s env (heq ▸ h)
    · rw [heq]; exact cloneBody_childFeatures s env
  · omega

set_option maxHeartbeats 800000 in
/-- C1: when clone fails at any step after the child metadata object was
created (opening the child, setting the parent, registering in the child
index, the protection re-check, the metadata copy, the mirror-mode read or
the mirror enable), the compensating actions corresponding to the forward
steps already completed run in reverse order, and the value returned is the
original failure's code: the results of the compensation calls (the
compRemoveChildR, compCloseR, compRemoveR fields carried in the comps list)
never replace it. -/
theorem clone_compensation_original_error (s : String) (env : CloneEnv)
    (hv : cloneValidationOk s env) (hcr : ¬ env.createR < 0) :
    (env.openR < 0 →
      clone s env = ⟨env.openR, cloneCompRemove env, some (effFeatures env)⟩) ∧
    (¬ env.openR < 0 → env.setParentR < 0 →
      clone s env =
        ⟨env.setParentR, cloneCompCloseChild env, some (effFeatures env)⟩) ∧
    (¬ env.openR < 0 → ¬ env.setParentR < 0 → env.addChildR < 0 →
      clone s env =
        ⟨env.addChildR, cloneCompCloseChild env, some (effFeatures env)⟩) ∧
    (clonePre4 env →
      ((cloneRecheck env).1 < 0 ∨ (cloneRecheck env).2 = false) →
      clone s env =
        ⟨-EINVAL, cloneCompRemoveChild env, some (effFeatures env)⟩) ∧
    (clonePre5 env →
      (env.metadataListR < 0 ∧
       ¬ (env.metadataListR = -EOPNOTSUPP ∨ env.metadataListR = -EIOErr)) →
      clone s env =
        ⟨env.metadataListR, cloneCompRemoveChild env, some (effFeatures env)⟩) ∧
    (clonePre6 env →
      (env.metadataListR = 0 ∧ env.pairsEmpty = false ∧ env.metadataSetR < 0) →
      clone s env =
        ⟨env.metadataSetR, cloneCompRemoveChild env, some (effFeatures env)⟩) ∧
    (clonePre7 env → effFeatures env &&& RBD_FEATURE_JOURNALING ≠ 0 →
      (env.mirrorModeGetR < 0 ∧ ¬ env.mirrorModeGetR = -ENOENT) →
      clone s env =
        ⟨env.mirrorModeGetR, cloneCompRemoveChild env, some (effFeatures env)⟩) ∧
    (clonePre7 env → effFeatures env &&& RBD_FEATURE_JOURNALING ≠ 0 →
      ¬ (env.mirrorModeGetR < 0 ∧ ¬ env.mirrorModeGetR = -ENOENT) →
      ((cloneEffMirrorMode env = .pool ∨ s.isEmpty = false) ∧
        env.mirrorEnableR < 0) →
      clone s env =
        ⟨env.mirrorEnableR, cloneCompRemoveChild env, some (effFeatures env)⟩) := by
  rw [clone_eq_body_of_valid s env hv]
  refine ⟨fun h1 => ?_, fun h1 h2 => ?_, fun h1 h2 h3 => ?_,
    fun hp hr => ?_, fun hp hm => ?_, fun hp hm => ?_,
    fun hp hj hm => ?_, fun hp hj hm1 hm2 => ?_⟩
  · simp [cloneBody, hcr, h1]
  · simp [cloneBody, hcr, h1, h2]
  · simp [cloneBody, hcr, h1, h2, h3]
  · obtain ⟨h1, h2, h3⟩ := hp
    simp [cloneBody, hcr, h1, h2, h3, hr]
  · obtain ⟨⟨h1, h2, h3⟩, hr⟩ := hp
    simp [cloneBody, hcr, h1, h2, h3, hr, hm]
  · obtain ⟨⟨⟨h1, h2, h3⟩, hr⟩, hl⟩ := hp
    simp [cloneBody, hcr, h1, h2, h3, hr, hl, hm]
  · obtain ⟨⟨⟨⟨h1, h2, h3⟩, hr⟩, hl⟩, hs⟩ := hp
    have hla : ¬ env.metadataListR < 0 ∨ env.metadataListR = -EOPNOTSUPP ∨
        env.metadataListR = -EIOErr := by tauto
    have hsa : ¬ env.metadataListR = 0 ∨ ¬ env.pairsEmpty = false ∨
        ¬ env.metadataSetR < 0 := by tauto
    rcases hla with hx | hx | hx <;> rcases hsa with hy | hy | hy <;>
      simp [cloneBody, EOPNOTSUPP, EIOErr, hcr, h1, h2, h3, hr, hx, hy, hj, hm]
  · obtain ⟨⟨⟨⟨h1, h2, h3⟩, hr⟩, hl⟩, hs⟩ := hp
    have hla : ¬ env.metadataListR < 0 ∨ env.metadataListR = -EOPNOTSUPP ∨
        env.metadataListR = -EIOErr := by tauto
    have hsa : ¬ env.metadataListR = 0 ∨ ¬ env.pairsEmpty = false ∨
        ¬ env.metadataSetR < 0 := by tauto
    rcases hla with hx | hx | hx <;> rcases hsa with hy | hy | hy <;>
      simp [cloneBody, EOPNOTSUPP, EIOErr, hcr, h1, h2, h3, hr, hx, hy, hj, hm1,
        hm2]

/-- C1 witness: with set_parent failing with -5 and the compensation calls
themselves failing with -7 and -9, clone closes and deletes the child and
still returns -5. -/
theorem clone_compensation_original_error_witness :
    clone "" cloneEnvSetParentFail =
      ⟨-5, [(CompStep.closeChild, -7), (CompStep.removeImage, -9)], some 1⟩ := by
  have h := (clone_compensation_original_error "" cloneEnvSetParentFail
    (by decide) (by decide)).2.1 (by decide) (by decide)
  rw [h]; decide

set_option maxHeartbeats 800000 in
/-- C2: clone rejects a head (non-snapshot) source with -EINVAL, rejects an
unprotected parent snapshot at validation with -EINVAL, aborts with -EINVAL
and full compensation when the re-check after child-index registration no
longer sees the snapshot protected, and consequently never returns success
unless both the validation read and the re-check saw the snapshot
protected. -/
theorem clone_unprotected_parent_rejected (s : String) (env : CloneEnv) :
    (env.pSnapId = CEPH_NOSNAP → clone s env = ⟨-EINVAL, [], none⟩) ∧
    (cloneHeadOk env → env.snapProtected = false →
      clone s env = ⟨-EINVAL, [], none⟩) ∧
    (cloneValidationOk s env → ¬ env.createR < 0 → clonePre4 env →
      ((cloneRecheck env).1 < 0 ∨ (cloneRecheck env).2 = false) →
      clone s env =
        ⟨-EINVAL, cloneCompRemoveChild env, some (effFeatures env)⟩) ∧
    (0 ≤ (clone s env).ret →
      env.snapProtected = true ∧ (cloneRecheck env).2 = true) := by
  refine ⟨fun h => ?_, fun hh hs => ?_, fun hv hcr hp hr => ?_, fun h => ?_⟩
  · simp [clone, h]
  · obtain ⟨h1, h2, h3, h4, h5, h6, h7⟩ := hh
    simp [clone, h1, h2, h3, h4, h5, h6, h7, hs]
  · obtain ⟨h1, h2, h3⟩ := hp
    rw [clone_eq_body_of_valid s env hv]
    simp [cloneBody, hcr, h1, h2, h3, hr]
  · have h2 := clone_success_inv s env h
    exact ⟨h2.1, h2.2.1⟩

/-- C2 witness: a fully successful clone run indeed had a protected parent at
validation and at the re-check. -/
theorem clone_unprotected_parent_rejected_witness :
    cloneEnvOk.snapProtected = true ∧ (cloneRecheck cloneEnvOk).2 = true :=
  (clone_unprotected_parent_rejected "" cloneEnvOk).2.2.2 (by decide)

set_option maxHeartbeats 800000 in
/-- C8: clone fails with -ENOSYS when the caller requests a feature outside
the supported mask; when the caller specifies no feature set the child's
features are inherited from the parent; clone fails with -ENOSYS when the
effective feature set lacks layering; and any successful clone was created
with a layering-capable feature set. -/
theorem clone_feature_selection (s : String) (env : CloneEnv) (f : Nat) :
    (¬ env.pSnapId = CEPH_NOSNAP → ¬ env.formatOpt.getD 2 < 2 →
      env.featuresOpt = some f →
      ¬ f &&& (UINT64_MASK ^^^ RBD_FEATURES_ALL) = 0 →
      clone s env = ⟨-ENOSYS, [], none⟩) ∧
    (cloneValidationOk s env → env.featuresOpt = none →
      (clone s env).childFeatures = some env.pFeatures) ∧
    (cloneHeadOk env → env.snapProtected = true →
      ¬ cloneJournalGate s env < 0 →
      ¬ effFeatures env &&& RBD_FEATURE_LAYERING = RBD_FEATURE_LAYERING →
      clone s env = ⟨-ENOSYS, [], none⟩) ∧
    (0 ≤ (clone s env).ret →
      ∃ g, (clone s env).childFeatures = some g ∧
        g &&& RBD_FEATURE_LAYERING = RBD_FEATURE_LAYERING) := by
  refine ⟨fun h1 h2 hf hbad => ?_, fun hv hf => ?_, fun hh hs hg hl => ?_,
    fun h => ?_⟩
  · have hb : cloneBadFeatures env = true := by
      simp [cloneBadFeatures, hf]
      exact hbad
    simp [clone, h1, h2, hb]
  · rw [clone_eq_body_of_valid s env hv, cloneBody_childFeatures]
    simp [effFeatures, hf]
  · obtain ⟨h1, h2, h3, h4, h5, h6, h7⟩ := hh
    simp [clone, h1, h2, h3, h4, h5, h6, h7, hs, hg, hl]
  · have h2 := clone_success_inv s env h
    exact ⟨effFeatures env, h2.2.2.1, h2.2.2.2⟩

/-- C8 witness: requesting feature bit 128, which is outside the supported
mask, makes clone fail with -ENOSYS before creating anything. -/
theorem clone_feature_selection_witness :
    clone "" cloneEnvBadFeatures = ⟨-ENOSYS, [], none⟩ :=
  (clone_feature_selection "" cloneEnvBadFeatures 128).1
    (by decide) (by decide) (by decide) (by decide)

/-- C5: with the unprotect-first flag, an unprotected snapshot skips the
unprotect step entirely as a benign no-op; a protected one has unprotect
invoked and the protection state re-read; the process-abort branch is reached
exactly when the snapshot is still reported protected after the unprotect
call succeeded; and the abort outcome is distinct from every returned error
code. -/
theorem snap_remove_unprotect_first (ff uf : Bool) (env : SnapRemoveEnv) :
    (snapRemovePrefixOk ff env →
      snap_is_protected env.prot1 = .ok false →
      snap_remove ff uf env = (.ret env.removeR, false)) ∧
    (snapRemovePrefixOk ff env →
      snap_is_protected env.prot1 = .ok true →
      (snap_remove ff true env).2 = true) ∧
    ((snap_remove ff uf env).1 = .abortProcess ↔
      (snapRemovePrefixOk ff env ∧ snap_is_protected env.prot1 = .ok true ∧
       uf = true ∧ ¬ env.unprotectR < 0 ∧
       snap_is_protected env.prot2 = .ok true)) ∧
    (∀ r : Int, (SnapRemoveOutcome.abortProcess : SnapRemoveOutcome) ≠
      .ret r) := by
  refine ⟨fun hp h1 => ?_, fun hp h1 => ?_, ⟨fun h => ?_, fun h => ?_⟩,
    fun r => by simp⟩
  · obtain ⟨hns, h2, h3⟩ := hp
    simp [snap_remove, hns, h2, h3, h1]
  · obtain ⟨hns, h2, h3⟩ := hp
    rcases hq : snap_is_protected env.prot2 with r | b
    · simp [snap_remove, hns, h2, h3, h1, hq]
      split_ifs <;> simp
    · simp [snap_remove, hns, h2, h3, h1, hq]
      split_ifs <;> simp
  · unfold snap_remove at h
    repeat' split at h
    all_goals simp_all [snapRemovePrefixOk]
  · obtain ⟨⟨hns, h2, h3⟩, h1, huf, h6, hq⟩ := h
    simp [snap_remove, hns, h2, h3, h1, huf, h6, hq]

/-- C5 witness: an unprotected snapshot with the unprotect-first flag set is
removed without invoking unprotect, even though the unprotect call would have
failed and the re-read would have reported protected. -/
theorem snap_remove_unprotect_first_witness :
    snap_remove false true snapRemoveEnvSkip =
      (SnapRemoveOutcome.ret 0, false) :=
  (snap_remove_unprotect_first false true snapRemoveEnvSkip).1
    (by decide) (by decide)

/-- C9: for a refreshed image, snap_is_protected reports a snapshot as
protected exactly when its protection status is not unprotected, so the
protecting, protectedSt and unprotecting states all report as protected, and
an unknown snapshot name fails with -ENOENT. -/
theorem snap_is_protected_spec (env : SnapIsProtEnv) :
    (¬ env.refreshR < 0 → env.snapExists = false →
      snap_is_protected env = .error (-ENOENT)) ∧
    (¬ env.refreshR < 0 → env.snapExists = true →
      (snap_is_protected env = .ok true ↔ env.protStatus ≠ .unprotected)) ∧
    (¬ env.refreshR < 0 → env.snapExists = true →
      (env.protStatus = .protecting ∨ env.protStatus = .protectedSt ∨
        env.protStatus = .unprotecting) →
      snap_is_protected env = .ok true) := by
  refine ⟨fun h1 h2 => ?_, fun h1 h2 => ?_, fun h1 h2 h3 => ?_⟩
  · simp [snap_is_protected, h1, h2]
  · simp [snap_is_protected, h1, h2]
  · rcases h3 with h | h | h <;> simp [snap_is_protected, h1, h2, h]

/-- C9 witness: an unprotecting snapshot is reported as protected. -/
theorem snap_is_protected_spec_witness :
    snap_is_protected
      { refreshR := 0, snapExists := true, protStatus := .unprotecting } =
      .ok true :=
  (snap_is_protected_spec
    { refreshR := 0, snapExists := true, protStatus := .unprotecting }).2.2
    (by decide) (by decide) (by decide)

/-- C10 counterexample: with image size 10, offset 1 and length 2^64 - 1 the
request extends past the end of the image, yet the 64-bit sum off + len wraps
to 0, the clip branch is skipped, and the length is returned unchanged
instead of being reduced to image size minus offset (9). -/
theorem clip_io_wrap_counterexample :
    10 < 1 + 18446744073709551615 ∧
    clip_io { snapExists := true, imageSize := 10 } 1 18446744073709551615 =
      (0, 18446744073709551615) ∧
    (18446744073709551615 : Nat) ≠ 10 - 1 := by
  refine ⟨by norm_num, by decide, by norm_num⟩

/-- C10 (amended): clip_io fails with -ENOENT when the selected snapshot no
longer exists; a zero-length request succeeds at any offset; a nonzero-length
request starting at or past the image size fails with -EINVAL; and a request
whose 64-bit sum off + len exceeds the image size without wrapping has its
length reduced to image size minus offset, the offset unchanged, while a
request whose sum stays within the size (including the wrapped case) keeps
its length. -/
theorem clip_io_spec (env : ClipIoEnv) (off len : Nat) :
    (env.snapExists = false → clip_io env off len = (-ENOENT, len)) ∧
    (env.snapExists = true → len = 0 → clip_io env off len = (0, len)) ∧
    (env.snapExists = true → ¬ len = 0 → env.imageSize ≤ off →
      clip_io env off len = (-EINVAL, len)) ∧
    (env.snapExists = true → ¬ len = 0 → ¬ env.imageSize ≤ off →
      env.imageSize < (off + len) % 18446744073709551616 →
      clip_io env off len = (0, env.imageSize - off)) ∧
    (env.snapExists = true → ¬ len = 0 → ¬ env.imageSize ≤ off →
      ¬ env.imageSize < (off + len) % 18446744073709551616 →
      clip_io env off len = (0, len)) := by
  refine ⟨fun h1 => ?_, fun h1 h2 => ?_, fun h1 h2 h3 => ?_,
    fun h1 h2 h3 h4 => ?_, fun h1 h2 h3 h4 => ?_⟩
  all_goals unfold clip_io
  all_goals split_ifs <;> first | rfl | omega | simp_all

/-- C10 witness: a request of length 100 at offset 4 on a 10-byte image is
clipped to length 6. -/
theorem clip_io_spec_witness :
    clip_io { snapExists := true, imageSize := 10 } 4 100 = (0, 6) := by
  have h := (clip_io_spec { snapExists := true, imageSize := 10 } 4 100).2.2.2.1
    (by decide) (by decide) (by decide) (by decide)
  rw [h]; rfl

/-- One iteration started with no pending error records exactly its chunk's
error. -/
theorem copyStep_err (c : Nat → CopyChunk) (sz p : Nat) (st : CopyState)
    (i : Nat) (h : st.err = none) :
    (copyStep c sz p st i).err = chunkErr (c i) := by
  unfold copyStep
  rw [h]

/-- A copy state carrying an error is frozen: later iterations only observe
pending_error and stop. -/
theorem copyFold_frozen (c : Nat → CopyChunk) (sz p : Nat) (l : List Nat)
    (st : CopyState) (e : Int) (h : st.err = some e) :
    l.foldl (copyStep c sz p) st = st := by
  induction l with
  | nil => rfl
  | cons x xs ih =>
    rw [List.foldl_cons]
    have hx : copyStep c sz p st x = st := by
      unfold copyStep; rw [h]
    rw [hx, ih]

/-- Folding over error-free chunks keeps the recorded error empty. -/
theorem copyFold_clean (c : Nat → CopyChunk) (sz p : Nat) (l : List Nat)
    (st : CopyState) (h1 : ∀ i ∈ l, chunkErr (c i) = none)
    (h : st.err = none) : (l.foldl (copyStep c sz p) st).err = none := by
  induction l generalizing st with
  | nil => exact h
  | cons x xs ih =>
    rw [List.foldl_cons]
    refine ih _ (fun i hi => h1 i (List.mem_cons_of_mem x hi)) ?_
    unfold copyStep
    rw [h]
    exact h1 x (List.mem_cons_self x xs)

/-- Folding over a clean prefix, an erring chunk j, and anything after,
records exactly chunk j's error. -/
theorem copyFold_first_err (c : Nat → CopyChunk) (sz p : Nat)
    (l1 : List Nat) (j : Nat) (l2 : List Nat) (st : CopyState) (e : Int)
    (hst : st.err = none) (h1 : ∀ i ∈ l1, chunkErr (c i) = none)
    (hj : chunkErr (c j) = some e) :
    ((l1 ++ j :: l2).foldl (copyStep c sz p) st).err = some e := by
  rw [List.foldl_append, List.foldl_cons]
  have hmid := copyFold_clean c sz p l1 st h1 hst
  have hstep : (copyStep c sz p (l1.foldl (copyStep c sz p) st) j).err =
      some e := by
    rw [copyStep_err c sz p _ j hmid, hj]
  rw [copyFold_frozen c sz p l2 _ e hstep]
  exact hstep

/-- A write issued by one iteration is either inherited or belongs to a
non-zero successfully read chunk at its own offset. -/
theorem copyStep_writes_mem (c : Nat → CopyChunk) (sz p : Nat)
    (st : CopyState) (i off : Nat)
    (h : off ∈ (copyStep c sz p st i).writes) :
    off ∈ st.writes ∨
    (off = i * p ∧ (c i).isZero = false ∧ ¬ (c i).readR < 0) := by
  unfold copyStep at h
  rcases hst : st.err with _ | e <;> rw [hst] at h
  · dsimp only at h
    split_ifs at h with hc
    · rcases List.mem_append.mp h with hm | hm
      · exact Or.inl hm
      · simp only [List.mem_singleton] at hm
        exact Or.inr ⟨hm, hc.2, hc.1⟩
    · exact Or.inl h
  · exact Or.inl h

/-- Writes accumulated by the sweep all come from non-zero successfully read
chunks. -/
theorem copyFold_writes_mem (c : Nat → CopyChunk) (sz p : Nat)
    (l : List Nat) (st : CopyState) (off : Nat)
    (h : off ∈ (l.foldl (copyStep c sz p) st).writes) :
    off ∈ st.writes ∨
    ∃ i, off = i * p ∧ (c i).isZero = false ∧ ¬ (c i).readR < 0 := by
  induction l generalizing st with
  | nil => exact Or.inl h
  | cons x xs ih =>
    rw [List.foldl_cons] at h
    rcases ih _ h with hm | hm
    · rcases copyStep_writes_mem c sz p st x off hm with hm2 | hm2
      · exact Or.inl hm2
      · exact Or.inr ⟨x, hm2⟩
    · exact Or.inr hm

/-- An initial segment of the naturals below n splits at any j < n. -/
theorem range_split (j n : Nat) (h : j < n) :
    ∃ l2, List.range n = List.range j ++ j :: l2 := by
  induction n with
  | zero => omega
  | succ n ih =>
    rcases Nat.lt_succ_iff_lt_or_eq.mp h with h1 | h1
    · obtain ⟨l2, hl⟩ := ih h1
      exact ⟨l2 ++ [n], by rw [List.range_succ, hl]; simp⟩
    · subst h1
      exact ⟨[], by rw [List.range_succ]⟩

set_option maxHeartbeats 800000 in
/-- C6: copy fails with -EINVAL before any chunk operation when the
destination is smaller than the source; every issued write belongs to a
chunk whose read succeeded with non-zero content (all-zero chunks are
elided); the first error recorded by any chunk operation is what copy
returns; and an error-free sweep returns 0 with cumulative progress reported
as the full source size. -/
theorem copy_spec (env : CopyEnv) :
    (env.destSize < env.srcSize → copy env = ⟨-EINVAL, [], []⟩) ∧
    (∀ off ∈ (copy env).writes, ∃ i, off = i * env.period ∧
      (env.chunk i).isZero = false ∧ ¬ (env.chunk i).readR < 0) ∧
    (copyValidOk env → 0 < env.period → ∀ j e, j < copyNumChunks env →
      (∀ i, i < j → chunkErr (env.chunk i) = none) →
      chunkErr (env.chunk j) = some e → (copy env).ret = e) ∧
    (copyValidOk env → 0 < env.period →
      (∀ i, i < copyNumChunks env → chunkErr (env.chunk i) = none) →
      (copy env).ret = 0 ∧
      (copy env).progress.getLast? = some (env.srcSize, env.srcSize)) := by
  refine ⟨fun h => ?_, fun off hoff => ?_, fun hv hp j e hj hclean hje => ?_,
    fun hv hp hclean => ?_⟩
  · simp [copy, h]
  · unfold copy at hoff
    split_ifs at hoff
    · simp at hoff
    · simp at hoff
    · simp at hoff
    · dsimp only at hoff
      split at hoff
      all_goals
        rcases copyFold_writes_mem env.chunk env.srcSize env.period _ _ off
          hoff with hm | hm
      · simp at hm
      · exact hm
      · simp at hm
      · exact hm
  · obtain ⟨h1, h2, h3⟩ := hv
    obtain ⟨l2, hl⟩ := range_split j (copyNumChunks env) hj
    unfold copy
    rw [if_neg h1, if_neg h2, if_neg h3]
    dsimp only
    rw [hl]
    have herr := copyFold_first_err env.chunk env.srcSize env.period
      (List.range j) j l2 ⟨none, [], []⟩ e rfl
      (fun i hi => hclean i (List.mem_range.mp hi)) hje
    rw [herr]
  · obtain ⟨h1, h2, h3⟩ := hv
    unfold copy
    rw [if_neg h1, if_neg h2, if_neg h3]
    dsimp only
    have herr := copyFold_clean env.chunk env.srcSize env.period
      (List.range (copyNumChunks env)) ⟨none, [], []⟩
      (fun i hi => hclean i (List.mem_range.mp hi)) rfl
    rw [herr]
    refine ⟨rfl, ?_⟩
    dsimp only
    simp

/-- C6 witness: copying an all-zero two-chunk image issues no writes,
returns 0 and reports cumulative progress 16 of 16. -/
theorem copy_spec_witness :
    (copy copyEnvZero).ret = 0 ∧
    (copy copyEnvZero).progress.getLast? = some (16, 16) ∧
    (copy copyEnvZero).writes = [] := by
  have h := (copy_spec copyEnvZero).2.2.2 (by decide) (by decide)
    (by decide)
  exact ⟨h.1, h.2, by decide⟩

/-- C4 counterexample: breaking an already-vacated exclusive lock returns
the -ENOENT error, not the success (0) the claim promises, and issues no
break. -/
theorem lock_break_vacant_counterexample :
    lock_break RBD_LOCK_MODE_EXCLUSIVE "addr1" lockBreakEnvVacant =
      (-ENOENT, false) ∧ (-ENOENT : Int) ≠ 0 := by
  refine ⟨by decide, by decide⟩

/-- C4 (amended): the locker is read from the store first and an identity
mismatch fails with -EBUSY without issuing any break, leaving the owner's
lock intact; on a match in the older break_lock path with blacklisting
configured, the owner's address is blacklisted before the break is issued;
breaking an already-vacated lock returns the distinct not-found code
-ENOENT (not success) with no break issued; and a matched break returns 0,
distinct from the vacated case. -/
theorem lock_break_spec (lockOwner : String) (client : Nat)
    (env : LockBreakEnv) (benv : BreakLockEnv) (l : Nat × String) :
    (¬ env.getOwnerR = -ENOENT → ¬ env.getOwnerR < 0 →
      env.lockerAddress ≠ lockOwner →
      lock_break RBD_LOCK_MODE_EXCLUSIVE lockOwner env = (-EBUSY, false)) ∧
    (env.getOwnerR = -ENOENT →
      lock_break RBD_LOCK_MODE_EXCLUSIVE lockOwner env = (-ENOENT, false)) ∧
    (¬ env.getOwnerR = -ENOENT → ¬ env.getOwnerR < 0 →
      env.lockerAddress = lockOwner → ¬ env.breakR = -ENOENT →
      ¬ env.breakR < 0 →
      lock_break RBD_LOCK_MODE_EXCLUSIVE lockOwner env = (0, true)) ∧
    (¬ benv.refreshR < 0 → benv.parseOk = true → benv.blacklistOn = true →
      ¬ benv.lockInfoR < 0 →
      benv.lockers.find? (fun x => x.1 == client) = some l →
      ¬ benv.blacklistAddR < 0 →
      (break_lock client benv).2 = [.blacklistAdd l.2, .breakIssued]) := by
  refine ⟨fun h1 h2 h3 => ?_, fun h1 => ?_, fun h1 h2 h3 h4 h5 => ?_,
    fun h1 h2 h3 h4 h5 h6 => ?_⟩
  · simp [lock_break, RBD_LOCK_MODE_EXCLUSIVE, h1, h2, h3]
  · simp [lock_break, RBD_LOCK_MODE_EXCLUSIVE, h1]
  · simp [lock_break, RBD_LOCK_MODE_EXCLUSIVE, h1, h2, h3, h4, h5]
  · by_cases hbr : benv.breakLockR < 0 <;>
      simp [break_lock, h1, h2, h3, h4, h5, h6, hbr]

/-- C4 witness: with blacklisting configured and the named client holding
the lock, break_lock blacklists the owner's address and then issues the
break, in that order. -/
theorem lock_break_spec_witness :
    (break_lock 4213 breakLockEnvOne).2 =
      [LockEvent.blacklistAdd "addr1", LockEvent.breakIssued] :=
  (lock_break_spec "" 4213 lockBreakEnvVacant breakLockEnvOne
    (4213, "addr1")).2.2.2
    (by decide) (by decide) (by decide) (by decide) (by rfl) (by decide)

/-- C3 counterexample: a forced disable of an image with one still-mirrored
descendant clone is still refused with -EBUSY (the children scan never
consults the force flag), contradicting the claim's unless-forced clause;
the record is rolled back to enabled. -/
theorem mirror_image_disable_forced_counterexample :
    mirror_image_disable true mirrorDisableEnvBusy =
      (-EBUSY, [.markDisabling, .childrenCheck, .rollbackEnabled]) := by
  decide

/-- C3 (amended): mirror_image_disable fails with -EINVAL when the pool
mode is not per-image; after marking the record disabling it scans all
descendants of all snapshots and refuses with the scan's error (-EBUSY for a
mirror record found) regardless of force, rolling the record back to
enabled; force is only forwarded to the terminal teardown request; a
teardown failure also rolls back, while success does not. -/
theorem mirror_image_disable_spec (force : Bool) (env : MirrorDisableEnv)
    (e : Int) :
    (¬ env.refreshR < 0 → ¬ env.modeGetR < 0 → env.mirrorMode ≠ .image →
      mirror_image_disable force env = (-EINVAL, [])) ∧
    (mirrorDisablePrefixOk env → mirrorDisableCheckSnaps env.snaps = .error e →
      mirror_image_disable force env =
        (e, [.markDisabling, .childrenCheck, .rollbackEnabled])) ∧
    (mirrorDisablePrefixOk env → mirrorDisableCheckSnaps env.snaps = .ok () →
      env.disableInternalR < 0 →
      mirror_image_disable force env =
        (env.disableInternalR,
         [.markDisabling, .childrenCheck, .teardown force,
          .rollbackEnabled])) ∧
    (mirrorDisablePrefixOk env → mirrorDisableCheckSnaps env.snaps = .ok () →
      ¬ env.disableInternalR < 0 →
      mirror_image_disable force env =
        (0, [.markDisabling, .childrenCheck, .teardown force])) ∧
    (∀ r : Int, ∀ rest : List Int, r ≠ -ENOENT →
      mirrorDisableCheckChildren (r :: rest) = .error (-EBUSY)) := by
  refine ⟨fun h1 h2 h3 => ?_, fun hp hs => ?_, fun hp hs hd => ?_,
    fun hp hs hd => ?_, fun r rest hr => ?_⟩
  · simp [mirror_image_disable, h1, h2, h3]
  · obtain ⟨h1, h2, h3, h4, h5, h6, h7⟩ := hp
    simp [mirror_image_disable, h1, h2, h3, h4, h5, h6, h7, hs]
  · obtain ⟨h1, h2, h3, h4, h5, h6, h7⟩ := hp
    simp [mirror_image_disable, h1, h2, h3, h4, h5, h6, h7, hs, hd]
  · obtain ⟨h1, h2, h3, h4, h5, h6, h7⟩ := hp
    simp [mirror_image_disable, h1, h2, h3, h4, h5, h6, h7, hs, hd]
  · simp [mirrorDisableCheckChildren, hr]

/-- C3 witness: an unforced disable of an image with one still-mirrored
descendant marks the record disabling, finds the descendant, refuses with
-EBUSY and rolls the record back to enabled. -/
theorem mirror_image_disable_spec_witness :
    mirror_image_disable false mirrorDisableEnvBusy =
      (-EBUSY, [.markDisabling, .childrenCheck, .rollbackEnabled]) :=
  (mirror_image_disable_spec false mirrorDisableEnvBusy (-EBUSY)).2.1
    (by decide) (by decide)

set_option maxHeartbeats 1600000 in
/-- C7: the pool mirroring uuid is generated and stored exactly when a
valid transition starts in disabled mode and targets a non-disabled mode; a
transition starting from image or pool mode never writes the uuid. -/
theorem mirror_mode_set_uuid (mode : Nat) (env : MirrorModeSetEnv) :
    (MMEvent.uuidSet ∈ (mirror_mode_set mode env).2 ↔
      ((mode = 1 ∨ mode = 2) ∧ ¬ env.modeGetR < 0 ∧
        env.currentMode = .disabled)) ∧
    (env.currentMode ≠ .disabled →
      MMEvent.uuidSet ∉ (mirror_mode_set mode env).2) := by
  have hsplit : 2 < mode ∨ mode = 0 ∨ mode = 1 ∨ mode = 2 := by omega
  constructor
  · rcases hsplit with h | h | h | h
    · have hL : (mirror_mode_set mode env).2 = [] := by
        unfold mirror_mode_set; rw [if_pos h]
      rw [hL]
      refine ⟨fun hx => absurd hx (by simp), fun hx => absurd hx.1 (by omega)⟩
    all_goals subst h
    all_goals rcases hcm : env.currentMode
    all_goals (try simp [mirror_mode_set, mmNext, hcm])
    all_goals (try split_ifs)
    all_goals (first | rfl | simp_all)
  · intro hc
    rcases hsplit with h | h | h | h
    · have hL : (mirror_mode_set mode env).2 = [] := by
        unfold mirror_mode_set; rw [if_pos h]
      rw [hL]
      simp
    all_goals subst h
    all_goals rcases hcm : env.currentMode
    all_goals (try simp [mirror_mode_set, mmNext, hcm] at hc ⊢)
    all_goals (try split_ifs)
    all_goals (first | rfl | simp_all)

/-- C7 witness: moving to pool mode from disabled mode stores a uuid; the
same move from image mode does not. -/
theorem mirror_mode_set_uuid_witness :
    MMEvent.uuidSet ∈ (mirror_mode_set 2 mmEnvFromDisabled).2 ∧
    MMEvent.uuidSet ∉ (mirror_mode_set 2 mmEnvFromImage).2 :=
  ⟨(mirror_mode_set_uuid 2 mmEnvFromDisabled).1.mpr (by decide),
   (mirror_mode_set_uuid 2 mmEnvFromImage).2 (by decide)⟩

end Librbd
